import Mathlib

/-!
# LoadCellSavior (`lcs.py`) — shallow embedding and verification

This file embeds the core of `lcs.py` — the ingestion loop (`loop`, lines
133–155), the interrupt handler with its persistence routine
(`handle_sigint`, lines 157–186, registered at line 188), and the bits of
`startup` that fix the session clock (lines 128–129) — as executable Lean
definitions, and proves or refutes the specification's claims about them.

Conventions of the embedding:
* Python `str` values are Lean `String`s; the helpers the code calls
  (`str.strip`, `int(...)`, `str.split('_')`, `os.path.splitext`,
  `glob.glob`, `max`) are modelled as explicit Lean functions below,
  restricted to ASCII text (all data this program manipulates is ASCII).
* A raw serial line is a list of byte values; `bytes.decode("utf-8")` is a
  real UTF-8 decoder returning `Option`.
* Fallible Python operations return `Except PyErr _`; an uncaught Python
  exception terminates the interpreter with a traceback and a non-zero
  process status, without the program logging anything itself.
* Side effects (log calls, `print`, `serial.close`, writing a file) are
  recorded as an explicit list of `Effect`s in each outcome.
-/

/-- Python exception classes that the embedded code can raise. -/
inductive PyErr where
  /-- Python `UnboundLocalError`: a function-local name was read before assignment.
      The payload is the variable's name. -/
  | unboundLocal (name : String)
  /-- Python `TypeError`: here, a callable invoked with the wrong number of
      positional arguments. -/
  | typeError
  /-- Python `ValueError`: raised by `int(...)` on a non-integer string and by
      `max(...)` on an empty sequence. -/
  | valueError
  /-- Python `IndexError`: list subscript out of range. -/
  | indexError
  /-- Python `UnicodeDecodeError`: `bytes.decode("utf-8")` on invalid UTF-8. -/
  | unicodeDecodeError
deriving DecidableEq, Repr

/-- Observable side effects of the embedded code, in program order. -/
inductive Effect where
  /-- A `log.info(msg)` call. -/
  | logInfo (msg : String)
  /-- A `log.fatal(msg)` call. -/
  | logFatal (msg : String)
  /-- A `print(msg)` call — the verbose echo of line 155. -/
  | echo (msg : String)
  /-- The `arduino.close()` call at line 168. -/
  | closeTransport
  /-- An `open(path, "w")` followed by `f.write(text)` — lines 182–183. -/
  | writeFile (path : String) (text : String)
deriving DecidableEq, Repr

/-! ## Python string and integer primitives (modelled from CPython behaviour) -/

/-- The whitespace characters removed by `str.strip()` (ASCII fragment:
space, tab, newline, carriage return, vertical tab, form feed). -/
def pyIsSpace (c : Char) : Bool :=
  c = ' ' || c = '\t' || c = '\n' || c = '\r' || c = '\x0b' || c = '\x0c'

/-- Python `str.strip()`: remove leading and trailing whitespace. -/
def pyStrip (s : String) : String :=
  String.mk (((s.data.dropWhile pyIsSpace).reverse.dropWhile pyIsSpace).reverse)

/-- Digit-sequence fragment of CPython's `int(str)` parser: decimal digits
in which a single underscore may separate two digits (`1_0` is 10), but an
underscore may not lead, trail, or repeat. Returns the accumulated value. -/
def pyDigitsAux (acc : Nat) : List Char → Option Nat
  | [] => some acc
  | '_' :: c :: rest =>
    if c.isDigit then pyDigitsAux (acc * 10 + (c.toNat - 48)) rest else none
  | '_' :: [] => none
  | c :: rest =>
    if c.isDigit then pyDigitsAux (acc * 10 + (c.toNat - 48)) rest else none

/-- Parse a non-empty digit sequence (with underscore separators). -/
def pyDigits : List Char → Option Nat
  | [] => none
  | c :: rest =>
    if c.isDigit then pyDigitsAux (c.toNat - 48) rest else none

/-- CPython's `int(str)` with the default base 10 (ASCII fragment): strip
surrounding whitespace, then an optional sign followed by digits with
optional single-underscore separators. `none` models a raised
`ValueError`. -/
def pyInt? (s : String) : Option Int :=
  match (pyStrip s).data with
  | '+' :: rest => (pyDigits rest).map Int.ofNat
  | '-' :: rest => (pyDigits rest).map (fun n => -(Int.ofNat n))
  | cs => (pyDigits cs).map Int.ofNat

/-- Python's `str.split('_')`: split on every underscore, keeping empty
pieces (`"a__b"` gives `["a", "", "b"]`, `""` gives `[""]`). -/
def splitUnderscore : List Char → List (List Char)
  | [] => [[]]
  | '_' :: rest => [] :: splitUnderscore rest
  | c :: rest =>
    match splitUnderscore rest with
    | [] => [[c]]
    | group :: groups => (c :: group) :: groups

/-! ## UTF-8 decoding (`bytes.decode("utf-8")`, strict mode) -/

/-- Is `b` a UTF-8 continuation byte (`0x80`–`0xBF`)? -/
def isCont (b : Nat) : Bool := 0x80 ≤ b && b ≤ 0xBF

/-- Code point contributed by a continuation byte. -/
def contVal (b : Nat) : Nat := b - 0x80

/-- Strict UTF-8 decoder, fuelled so that recursion is structural (each step
consumes at least one byte, so `bs.length` fuel always suffices): rejects
truncated sequences, stray continuation bytes, overlong encodings,
surrogate code points and code points above `U+10FFFF`, exactly as
CPython's `bytes.decode("utf-8")` does. -/
def utf8DecodeAux : Nat → List Nat → Option (List Char)
  | _, [] => some []
  | 0, _ :: _ => none
  | fuel + 1, b0 :: rest =>
    if b0 ≤ 0x7F then
      (utf8DecodeAux fuel rest).map (fun cs => Char.ofNat b0 :: cs)
    else if 0xC2 ≤ b0 && b0 ≤ 0xDF then
      match rest with
      | b1 :: rest2 =>
        if isCont b1 then
          (utf8DecodeAux fuel rest2).map
            (fun cs => Char.ofNat ((b0 - 0xC0) * 64 + contVal b1) :: cs)
        else none
      | _ => none
    else if 0xE0 ≤ b0 && b0 ≤ 0xEF then
      match rest with
      | b1 :: b2 :: rest3 =>
        let b1ok : Bool :=
          if b0 = 0xE0 then 0xA0 ≤ b1 && b1 ≤ 0xBF
          else if b0 = 0xED then 0x80 ≤ b1 && b1 ≤ 0x9F
          else isCont b1
        if b1ok && isCont b2 then
          (utf8DecodeAux fuel rest3).map
            (fun cs =>
              Char.ofNat ((b0 - 0xE0) * 4096 + contVal b1 * 64 + contVal b2) :: cs)
        else none
      | _ => none
    else if 0xF0 ≤ b0 && b0 ≤ 0xF4 then
      match rest with
      | b1 :: b2 :: b3 :: rest4 =>
        let b1ok : Bool :=
          if b0 = 0xF0 then 0x90 ≤ b1 && b1 ≤ 0xBF
          else if b0 = 0xF4 then 0x80 ≤ b1 && b1 ≤ 0x8F
          else isCont b1
        if b1ok && isCont b2 && isCont b3 then
          (utf8DecodeAux fuel rest4).map
            (fun cs =>
              Char.ofNat
                ((b0 - 0xF0) * 262144 + contVal b1 * 4096 +
                  contVal b2 * 64 + contVal b3) :: cs)
        else none
      | _ => none
    else none

/-- Decoding of a full byte string, `bytes.decode("utf-8")`. -/
def utf8Decode (bs : List Nat) : Option (List Char) :=
  utf8DecodeAux bs.length bs

/-! ## The accumulator and the ingestion loop (`lcs.py` lines 17–24, 128–155)

The mutable globals the loop touches are gathered into `LoopState`.
`csv_text` (line 22) is the header line followed by one `"{ms},{value}\n"`
row per successful append (line 153); since the program only ever appends
whole rows, the state keeps the list of appended `(ms, value)` rows and
`csvText` rebuilds the exact string. -/
structure LoopState where
  /-- The data rows appended to `csv_text` after the fixed header. -/
  csv_rows : List (Int × Int)
  /-- Global `ms_at_start`, sampled once at line 128 when the connection opens. -/
  ms_at_start : Int
  /-- Global `ms_since_start`, last elapsed time written at line 151. -/
  ms_since_start : Int
  /-- The `arduino` global: `none` models the Python `None`; `some b`
      models a serial handle whose `is_open` is `b`. -/
  arduino : Option Bool
  /-- The `VERBOSE` flag. -/
  VERBOSE : Bool
deriving DecidableEq, Repr

/-- The fixed CSV header, line 22. -/
def csvHeader : String := "Time_Ms,LoadCellReading_Grams\n"

/-- The current value of the `csv_text` global: header plus one
`"{ms},{value}\n"` line per accumulated row, in arrival order. -/
def csvText (rows : List (Int × Int)) : String :=
  csvHeader ++ String.join (rows.map (fun r => s!"{r.1},{r.2}\n"))

/-- State right after `startup` connects (lines 121, 128–129): no rows yet,
`ms_at_start` sampled as `t0`, `ms_since_start` zeroed, transport open. -/
def initState (t0 : Int) (verbose : Bool) : LoopState :=
  { csv_rows := [], ms_at_start := t0, ms_since_start := 0,
    arduino := some true, VERBOSE := verbose }

/-- The filter at lines 142–148 as a single decision: strip the line; an
empty result or an `int(...)` failure yields `none` (the iteration
returns without touching state), otherwise the parsed value. -/
def pyParseLine (line : String) : Option Int :=
  let data := pyStrip line
  if data = "" then none else pyInt? data

/-- Lines 140–155 of `loop`, after the decode has produced text `line`:
strip; drop empty or non-integer data; otherwise sample the clock (`now`,
the value of `int(time.time() * 1000)` at line 151), set
`ms_since_start := now - ms_at_start`, append the row, and echo it when
`VERBOSE`. Returns the new state and the emitted effects. -/
def processLine (st : LoopState) (now : Int) (line : String) :
    LoopState × List Effect :=
  let data := pyStrip line
  if data = "" then (st, [])
  else
    match pyInt? data with
    | none => (st, [])
    | some value =>
      let ms := now - st.ms_at_start
      ({ st with csv_rows := st.csv_rows ++ [(ms, value)], ms_since_start := ms },
        if st.VERBOSE then [Effect.echo s!"{ms} ms: {value} grams"] else [])

/-- Outcome of one iteration of `loop`. -/
inductive StepResult where
  /-- The iteration returned normally; the loop continues. -/
  | cont (st : LoopState) (eff : List Effect)
  /-- A `sys.exit(code)` call. -/
  | halt (code : Nat) (eff : List Effect)
  /-- An uncaught Python exception escaped the iteration: the interpreter
      prints a traceback and the process dies with a non-zero status.
      `eff` holds the effects emitted before the raise. -/
  | uncaught (e : PyErr) (eff : List Effect)
deriving DecidableEq, Repr

/-- The effects an iteration emitted, whatever its outcome. -/
def stepEffects : StepResult → List Effect
  | .cont _ eff => eff
  | .halt _ eff => eff
  | .uncaught _ eff => eff

/-- One iteration of `loop` (lines 133–155). `raw` is the byte string
`arduino.readline()` returns, `now` the clock sample of line 151.
Lines 135–137: if `arduino` is `None` or not open, `log.fatal` and
`sys.exit(1)`. Line 140: decode the bytes; a failure propagates as an
uncaught `UnicodeDecodeError`. Then the filter-and-append body. -/
def loopStep (st : LoopState) (now : Int) (raw : List Nat) : StepResult :=
  match st.arduino with
  | none => .halt 1 [Effect.logFatal "Serial connection closed unexpectedly."]
  | some isOpen =>
    if isOpen then
      match utf8Decode raw with
      | none => .uncaught .unicodeDecodeError []
      | some cs =>
        let (st2, eff) := processLine st now (String.mk cs)
        .cont st2 eff
    else .halt 1 [Effect.logFatal "Serial connection closed unexpectedly."]

/-- Feeding a sequence of already-decoded lines through the loop body,
each paired with the clock value sampled during its iteration. -/
def runLines (st : LoopState) (evs : List (Int × String)) : LoopState :=
  evs.foldl (fun s e => (processLine s e.1 e.2).1) st

/-- The row a single event contributes to the CSV, if any: its parsed value
stamped with the event's clock sample minus the session start `t0`. -/
def rowOf (t0 : Int) (e : Int × String) : Option (Int × Int) :=
  (pyParseLine e.2).map (fun v => (e.1 - t0, v))

/-! ## The interrupt handler and persistence (`lcs.py` lines 157–188) -/

/-- The globals `handle_sigint` touches. `dirListing` is the set of entry
names in `OUTPUT_DIR`, standing for the directory contents that
`glob.glob(f"{OUTPUT_DIR}/*.csv")` scans. -/
structure Globals where
  /-- The module-level `sigint_count` (line 157). -/
  sigint_count : Int
  /-- The accumulated `csv_text` rows. -/
  csv_rows : List (Int × Int)
  /-- The `OUTPUT_DIR` global. -/
  OUTPUT_DIR : String
  /-- The file names currently present in the output directory. -/
  dirListing : List String
deriving DecidableEq, Repr

/-- The call `glob.glob` on `OUTPUT_DIR` with pattern `*.csv`, as the selected entry names: every
name ending in `.csv`, except hidden files, which `*` does not match. -/
def globCsv (listing : List String) : List String :=
  listing.filter (fun n =>
    (n.data.reverse.take 4 = ['v', 's', 'c', '.']) &&
      ¬ (n.data.take 1 = ['.']))

/-- Line 176 applied to one file name:
`int(os.path.splitext(os.path.basename(file))[0].split('_')[1])`. The
names produced by the glob all end in `.csv`, so `splitext` drops the last
four characters; `[1]` on the underscore-split raises `IndexError` when
the stem has no underscore, and `int` raises `ValueError` on a
non-integer piece. -/
def extractIndex (name : String) : Except PyErr Int :=
  let stem := name.data.dropLast.dropLast.dropLast.dropLast
  match (splitUnderscore stem).get? 1 with
  | none => .error .indexError
  | some piece =>
    match pyInt? (String.mk piece) with
    | none => .error .valueError
    | some v => .ok v

/-- The list comprehension at line 176: extract every file's index,
propagating the first exception. -/
def extractIndices (files : List String) : Except PyErr (List Int) :=
  files.mapM extractIndex

/-- Python's `max` on a list of integers: raises `ValueError` on `[]`. -/
def pyMax : List Int → Except PyErr Int
  | [] => .error .valueError
  | x :: xs => .ok (xs.foldl max x)

/-- Lines 174–180: scan the directory, extract the indices, take the
maximum and add one to name the new file. -/
def nextFilename (listing : List String) : Except PyErr String := do
  let files := globCsv listing
  let numbers ← extractIndices files
  let highest ← pyMax numbers
  pure s!"LoadCellData_{highest + 1}.csv"

/-- Outcome of one invocation of `handle_sigint`. -/
inductive SigintOutcome where
  /-- A `sys.exit(code)` call after emitting `eff`. -/
  | exit (code : Nat) (eff : List Effect)
  /-- An uncaught exception: traceback, process dies non-zero. -/
  | uncaught (e : PyErr) (eff : List Effect)
deriving DecidableEq, Repr

/-- The effects the handler emitted, whatever its outcome. -/
def sigintEffects : SigintOutcome → List Effect
  | .exit _ eff => eff
  | .uncaught _ eff => eff

/-- CPython name resolution inside `handle_sigint`: the augmented
assignment `sigint_count += 1` at line 163 is an assignment, and the
function has no `global sigint_count` declaration, so `sigint_count` is a
function-local slot throughout the body — and it is unbound when line 159
reads it. This constant is that local slot's value at function entry. -/
def localSigintCountAtEntry : Option Int := none

/-- The body of `handle_sigint` (lines 158–186), one statement at a time:

* line 159 reads the local `sigint_count` slot (see
  `localSigintCountAtEntry`); reading an unbound local raises
  `UnboundLocalError`, so in the code as written everything below is dead;
* lines 160–161: with a positive count, `log.fatal` and `sys.exit(1)`;
* line 163 increments the local; lines 164–165 log; line 168 closes the
  transport;
* lines 174–180 compute the next file name (`nextFilename`); an exception
  there propagates out of the handler;
* lines 182–186 write `csv_text` to the new file, log, and `sys.exit(0)`. -/
def handle_sigint (g : Globals) : SigintOutcome :=
  match localSigintCountAtEntry with
  | none => .uncaught (.unboundLocal "sigint_count") []
  | some sc =>
    if sc > 0 then
      .exit 1 [Effect.logFatal "SIGINT received twice, exiting."]
    else
      let eff :=
        [Effect.logInfo
            "SIGINT received. Closing serial connection, saving data, and exiting.",
          Effect.logInfo "Press CTRL+C again to force exit.",
          Effect.closeTransport]
      match nextFilename g.dirListing with
      | .error e => .uncaught e eff
      | .ok filename =>
        let path := g.OUTPUT_DIR ++ "/" ++ filename
        .exit 0 (eff ++
          [Effect.writeFile path (csvText g.csv_rows),
            Effect.logInfo ("Saved data to " ++ path),
            Effect.logInfo "Exiting."])

/-- The definition `def handle_sigint():` declares zero parameters (line 158). -/
def handlerParamCount : Nat := 0

/-- CPython invokes a handler installed by `signal.signal` with two
positional arguments, the signal number and the current frame. -/
def signalDeliveryArgCount : Nat := 2

/-- Delivery of SIGINT to the registered handler (line 188): CPython calls
`handle_sigint(signum, frame)`; an arity mismatch raises `TypeError`
before the body runs. -/
def deliverSigint (g : Globals) : SigintOutcome :=
  if handlerParamCount = signalDeliveryArgCount then handle_sigint g
  else .uncaught .typeError []



/-! ## General behaviour of the loop body -/

/-- A dropped line (empty after stripping, or not an integer) leaves the
state untouched and emits nothing. -/
theorem processLine_parse_none {line : String} (st : LoopState) (now : Int)
    (h : pyParseLine line = none) : processLine st now line = (st, []) := by
  unfold pyParseLine at h
  unfold processLine
  by_cases he : pyStrip line = ""
  · simp [he]
  · simp only [he, if_false] at h
    simp [he, h]

/-- A successfully parsed line appends one row stamped `now - ms_at_start`
and echoes it when verbose. -/
theorem processLine_parse_some {line : String} {v : Int} (st : LoopState)
    (now : Int) (h : pyParseLine line = some v) :
    processLine st now line =
      ({ st with
          csv_rows := st.csv_rows ++ [(now - st.ms_at_start, v)],
          ms_since_start := now - st.ms_at_start },
        if st.VERBOSE then
          [Effect.echo s!"{now - st.ms_at_start} ms: {v} grams"]
        else []) := by
  unfold pyParseLine at h
  unfold processLine
  by_cases he : pyStrip line = ""
  · simp [he] at h
  · simp only [he, if_false] at h
    simp [he, h]

/-- Running the loop body over a sequence of events appends exactly the
rows of the successfully parsed events, in arrival order, and never
touches `ms_at_start`. -/
theorem runLines_csv_rows (st : LoopState) (evs : List (Int × String)) :
    (runLines st evs).csv_rows =
      st.csv_rows ++ evs.filterMap (rowOf st.ms_at_start) ∧
    (runLines st evs).ms_at_start = st.ms_at_start := by
  induction evs generalizing st with
  | nil => simp [runLines]
  | cons e evs ih =>
    have hstep : runLines st (e :: evs) = runLines (processLine st e.1 e.2).1 evs := rfl
    cases hp : pyParseLine e.2 with
    | none =>
      rw [hstep, processLine_parse_none st e.1 hp]
      have := ih st
      simpa [List.filterMap_cons, rowOf, hp] using this
    | some v =>
      rw [hstep, processLine_parse_some st e.1 hp]
      obtain ⟨h1, h2⟩ := ih
        { st with
            csv_rows := st.csv_rows ++ [(e.1 - st.ms_at_start, v)],
            ms_since_start := e.1 - st.ms_at_start }
      refine ⟨?_, by simpa using h2⟩
      rw [h1]
      simp [List.filterMap_cons, rowOf, hp, List.append_assoc]

/-- One loop-body call emits at most a verbose echo — never a log, a file
write, or a transport close. -/
theorem processLine_effects (st : LoopState) (now : Int) (line : String) :
    (processLine st now line).2 = [] ∨
      ∃ m, (processLine st now line).2 = [Effect.echo m] := by
  unfold processLine
  by_cases he : pyStrip line = ""
  · simp [he]
  · cases hp : pyInt? (pyStrip line) with
    | none => simp [he, hp]
    | some v =>
      by_cases hv : st.VERBOSE
      · exact Or.inr ⟨s!"{now - st.ms_at_start} ms: {v} grams", by simp [he, hp, hv]⟩
      · simp [he, hp, hv]

/-! ## The claims -/

/-- C1. Claim: one SIGINT delivered to a running session closes the
transport, writes exactly one CSV file (header plus all accumulated rows)
and exits with status 0. What the code does instead: delivery raises
`TypeError` (the handler is registered with zero parameters, but CPython
calls handlers with two); and even called with the right arity, the body
raises `UnboundLocalError` at line 159 (`sigint_count` is function-local
because of the undeclared assignment at line 163). In every case the
process dies on a traceback: nothing is logged, the transport stays open,
no file is written, and the exit status is not 0. -/
theorem sigint_once_crashes_without_saving (g : Globals) :
    deliverSigint g = .uncaught .typeError [] ∧
    handle_sigint g = .uncaught (.unboundLocal "sigint_count") [] ∧
    (∀ path text, Effect.writeFile path text ∉ sigintEffects (handle_sigint g)) ∧
    (∀ eff, handle_sigint g ≠ .exit 0 eff) := by
  refine ⟨rfl, rfl, ?_, ?_⟩
  · intro path text h
    simp [handle_sigint, localSigintCountAtEntry, sigintEffects] at h
  · intro eff h
    simp [handle_sigint, localSigintCountAtEntry] at h

/-- C2. Claim: a second SIGINT before the first shutdown completes makes
the handler report a forced-exit condition and exit non-zero without
writing a file. What the code does instead: the guard at lines 159–161 can
never fire — it reads the unbound local `sigint_count`, so every
invocation (here one whose global counter is already 1, as a completed
first increment would leave it) dies on `UnboundLocalError` before
reporting anything; no forced-exit message is ever logged. -/
theorem second_sigint_guard_unreachable (g : Globals) :
    handle_sigint { g with sigint_count := 1 } =
      .uncaught (.unboundLocal "sigint_count") [] ∧
    handle_sigint { g with sigint_count := 1 } ≠
      .exit 1 [Effect.logFatal "SIGINT received twice, exiting."] ∧
    (∀ msg, Effect.logFatal msg ∉
      sigintEffects (handle_sigint { g with sigint_count := 1 })) := by
  refine ⟨rfl, ?_, ?_⟩
  · intro h
    simp [handle_sigint, localSigintCountAtEntry] at h
  · intro msg h
    simp [handle_sigint, localSigintCountAtEntry, sigintEffects] at h

/-- C3. Claim: at persistence time the output index is 1 plus the maximum
index of the matching files, and 0 for an empty directory. The code agrees
on `LoadCellData_3.csv`/`LoadCellData_7.csv` (index 8), but on a directory
with no `.csv` files line 178 evaluates `max([])`, which raises an uncaught
`ValueError` instead of producing index 0 and `LoadCellData_0.csv`. -/
theorem next_index_empty_dir_crashes :
    nextFilename ["LoadCellData_3.csv", "LoadCellData_7.csv"] =
      .ok "LoadCellData_8.csv" ∧
    nextFilename [] = .error .valueError :=
  ⟨rfl, rfl⟩

/-- C7 counterexample. The claim says the directory scan considers only
files matching `LoadCellData_<index>.csv`; but with `Other_9.csv` present
next to `LoadCellData_3.csv` the computed name is `LoadCellData_10.csv`,
not the `LoadCellData_4.csv` obtained when the non-matching file is
absent — the glob at line 174 selects every `*.csv` file. -/
theorem scan_not_restricted_to_pattern :
    nextFilename ["LoadCellData_3.csv", "Other_9.csv"] =
      .ok "LoadCellData_10.csv" ∧
    nextFilename ["LoadCellData_3.csv"] = .ok "LoadCellData_4.csv" :=
  ⟨rfl, rfl⟩

/-- C7 as amended: the scan considers every `*.csv` file in the output
directory, whatever its prefix; a `.csv` name whose stem has no second
`_`-separated field raises an uncaught `IndexError`, and one whose second
field is not an integer raises an uncaught `ValueError` — terminating the
process with non-zero status via a traceback, with no message logged for
the failure. -/
theorem scan_takes_every_csv_and_raises_on_unparsable :
    nextFilename ["LoadCellData_3.csv", "Other_9.csv"] =
      .ok "LoadCellData_10.csv" ∧
    nextFilename ["notes.csv"] = .error .indexError ∧
    nextFilename ["data_x.csv"] = .error .valueError :=
  ⟨rfl, rfl, rfl⟩

/-- C8 counterexample. The claim says a decode failure is fatal *and* a
clear message is logged; on the undecodable byte `0xFF` the iteration
raises `UnicodeDecodeError` with an empty effect list — the process dies
on the interpreter's traceback, but the program logs nothing. -/
theorem decode_failure_logs_nothing :
    loopStep (initState 0 false) 5 [0xFF] = .uncaught .unicodeDecodeError [] ∧
    ∀ msg, Effect.logFatal msg ∉
      stepEffects (loopStep (initState 0 false) 5 [0xFF]) := by
  refine ⟨by decide, ?_⟩
  intro msg h
  rw [show stepEffects (loopStep (initState 0 false) 5 [0xFF]) = [] from rfl] at h
  exact List.not_mem_nil _ h

/-- C8 as amended: a decode failure propagates as an uncaught
`UnicodeDecodeError` — terminating the process with non-zero status, never
silently ignored the way an integer parse failure is (the parse failure
leaves the state untouched and the loop running) — but the program itself
logs no message. -/
theorem decode_failure_fatal_unlike_parse_failure (t0 now : Int) (vb : Bool) :
    loopStep (initState t0 vb) now [0xFF] = .uncaught .unicodeDecodeError [] ∧
    processLine (initState t0 vb) now "abc" = (initState t0 vb, []) :=
  ⟨rfl, processLine_parse_none _ _ (by decide)⟩

/-- C9. The transport check runs at the top of every iteration (lines
135–137): a
closed or absent handle makes the iteration log the failure and
`sys.exit(1)` — whatever bytes would have been read — and no iteration
ever exits with status 0 or writes a file, so the loop never initiates the
shutdown/persistence path itself. -/
theorem closed_transport_is_fatal (st : LoopState) (now : Int) (raw : List Nat) :
    loopStep { st with arduino := some false } now raw =
      .halt 1 [Effect.logFatal "Serial connection closed unexpectedly."] ∧
    loopStep { st with arduino := none } now raw =
      .halt 1 [Effect.logFatal "Serial connection closed unexpectedly."] ∧
    (∀ eff, loopStep st now raw ≠ .halt 0 eff) ∧
    (∀ path text, Effect.writeFile path text ∉ stepEffects (loopStep st now raw)) := by
  refine ⟨rfl, rfl, ?_, ?_⟩
  · intro eff h
    unfold loopStep at h
    cases hard : st.arduino with
    | none => simp [hard] at h
    | some isOpen =>
      cases isOpen with
      | false => simp [hard] at h
      | true =>
        cases hdec : utf8Decode raw with
        | none => simp [hard, hdec] at h
        | some cs => simp [hard, hdec] at h
  · intro path text h
    unfold loopStep at h
    cases hard : st.arduino with
    | none => simp [hard, stepEffects] at h
    | some isOpen =>
      cases isOpen with
      | false => simp [hard, stepEffects] at h
      | true =>
        cases hdec : utf8Decode raw with
        | none => simp [hard, hdec, stepEffects] at h
        | some cs =>
          simp only [hard, hdec, stepEffects] at h
          rcases processLine_effects st now (String.mk cs) with he | ⟨m, he⟩ <;>
            simp [he, stepEffects] at h

/-- C4. For every sequence of lines fed to the loop body, the values
accumulated into the CSV are exactly the successfully parsed lines, in
arrival order (so the row counts agree); in particular feeding `"12"`,
`""`, `"abc"`, `"45"` leaves exactly the two rows `12` and `45`, in that
order. -/
theorem rows_are_parsed_lines_in_order (t0 : Int) (vb : Bool)
    (evs : List (Int × String)) :
    ((runLines (initState t0 vb) evs).csv_rows).map Prod.snd =
      evs.filterMap (fun e => pyParseLine e.2) ∧
    ((runLines (initState t0 vb) evs).csv_rows).length =
      (evs.filterMap (fun e => pyParseLine e.2)).length ∧
    ((runLines (initState 0 false)
        [(1, "12"), (2, ""), (3, "abc"), (4, "45")]).csv_rows).map Prod.snd =
      [12, 45] := by
  have h := (runLines_csv_rows (initState t0 vb) evs).1
  have hmap : ((runLines (initState t0 vb) evs).csv_rows).map Prod.snd =
      evs.filterMap (fun e => pyParseLine e.2) := by
    rw [h]
    simp only [initState, List.nil_append]
    rw [List.map_filterMap]
    congr 1
    funext e
    cases hpe : pyParseLine e.2 <;> simp [rowOf, hpe]
  refine ⟨hmap, ?_, by decide⟩
  calc ((runLines (initState t0 vb) evs).csv_rows).length
      = (((runLines (initState t0 vb) evs).csv_rows).map Prod.snd).length := by
        simp
    _ = (evs.filterMap (fun e => pyParseLine e.2)).length := by rw [hmap]

/-- C5. A malformed line — empty, whitespace-only (so empty after the
strip), or not parsable as an integer — makes the loop body a no-op: no
exception, no effect, and the state (hence the serialized CSV text) is
unchanged. -/
theorem malformed_line_is_noop (st : LoopState) (now : Int) (line : String)
    (h : pyParseLine line = none) :
    processLine st now line = (st, []) ∧
    csvText (processLine st now line).1.csv_rows = csvText st.csv_rows := by
  have hp := processLine_parse_none st now h
  exact ⟨hp, by rw [hp]⟩

/-- Witness for C5 at the three malformed shapes the claim lists: the
empty line, a whitespace-only line, and a non-numeric line. -/
theorem malformed_line_is_noop_witness :
    (pyParseLine "" = none ∧
      processLine (initState 0 false) 7 "" = (initState 0 false, [])) ∧
    (pyParseLine " \t\r\n" = none ∧
      processLine (initState 0 false) 7 " \t\r\n" = (initState 0 false, [])) ∧
    (pyParseLine "abc" = none ∧
      processLine (initState 0 false) 7 "abc" = (initState 0 false, [])) :=
  ⟨⟨by decide, (malformed_line_is_noop (initState 0 false) 7 "" (by decide)).1⟩,
    ⟨by decide, (malformed_line_is_noop (initState 0 false) 7 " \t\r\n" (by decide)).1⟩,
    ⟨by decide, (malformed_line_is_noop (initState 0 false) 7 "abc" (by decide)).1⟩⟩

/-- C6. For any append sequence whose clock samples never decrease
(monotonic or stalled clock), the recorded `elapsed_ms` values are
non-decreasing; each is the iteration's clock sample minus `ms_at_start`,
and `ms_at_start` stays what `startup` fixed at connect time. -/
theorem elapsed_ms_nondecreasing (t0 : Int) (vb : Bool)
    (evs : List (Int × String))
    (h : List.Pairwise (· ≤ ·) (evs.map Prod.fst)) :
    List.Pairwise (· ≤ ·)
      (((runLines (initState t0 vb) evs).csv_rows).map Prod.fst) ∧
    (runLines (initState t0 vb) evs).ms_at_start = t0 := by
  have hr := runLines_csv_rows (initState t0 vb) evs
  refine ⟨?_, by simpa [initState] using hr.2⟩
  rw [hr.1]
  simp only [initState, List.nil_append]
  rw [List.map_filterMap]
  refine List.pairwise_filterMap.mpr ?_
  have h' := List.pairwise_map.mp h
  refine h'.imp ?_
  intro a b hab x hx y hy
  simp only [rowOf, Option.map_map, Option.mem_def, Option.map_eq_some'] at hx hy
  obtain ⟨va, -, hxa⟩ := hx
  obtain ⟨vb', -, hyb⟩ := hy
  subst hxa hyb
  exact Int.sub_le_sub_right hab t0

/-- Witness for C6: a stalled-then-advancing clock (samples 0, 0, 5). -/
theorem elapsed_ms_nondecreasing_witness :
    List.Pairwise (· ≤ ·) ([(0, (0 : Int)), (0, 0), (5, 5)].map Prod.fst) ∧
    List.Pairwise (· ≤ ·)
      (((runLines (initState 0 false)
          [(0, "1"), (0, "2"), (5, "3")]).csv_rows).map Prod.fst) :=
  ⟨by decide,
    (elapsed_ms_nondecreasing 0 false [(0, "1"), (0, "2"), (5, "3")]
      (by decide)).1⟩

/-- C10. `"1_0"` is not a plain base-10 digit string, yet `int(...)`
accepts it (an underscore may separate digits in Python's integer
syntax), so the loop body records a reading of value 10 for it. -/
theorem underscored_line_is_accepted (t0 now : Int) :
    ("1_0".data.all Char.isDigit) = false ∧
    pyInt? "1_0" = some 10 ∧
    (runLines (initState t0 false) [(now, "1_0")]).csv_rows =
      [(now - t0, 10)] := by
  refine ⟨by decide, by decide, ?_⟩
  have hp : pyParseLine "1_0" = some 10 := by decide
  rw [(runLines_csv_rows (initState t0 false) [(now, "1_0")]).1]
  simp [initState, rowOf, hp]
